import Mathlib

/-!
Verification development for the Gold XAU/USD "Level-9" multi-timeframe
technical-analysis engine (`src/api/index.py`).

The Python source is shallowly embedded over exact rationals (`ℚ`):

* pandas column arithmetic is translated to list functions over the candle
  list; a value that pandas would render as `NaN` is modelled as `none`
  (an `Option ℚ`), and the two places where IEEE non-finite arithmetic
  yields a definite float (`avgGain / 0 = +inf`, hence
  `RSI = 100 - 100/(1 + inf) = 100` exactly) are translated to that
  definite value (see `rsiLast`);
* the per-timeframe dictionary `data_store` is an association list from
  string keys to candle frames; companion frames are only ever read
  through their last row (`.iloc[-1]`), modelled by `lastOf` (a stored
  frame that is present but empty would raise `IndexError` in the source;
  the fetcher never stores one, and it is modelled as absent);
* `analyze_timeframe` contains two unbound names on its full scoring
  path: `oil_df` (line 240; the variable of that name is local to
  `fetch_all_timeframes`) and, when `dxy_df` is absent while `yield_df`
  is present, `gold_up` (line 236, only assigned inside the dxy block).
  The faithful embedding `analyzeTimeframe` therefore returns
  `Except.error` with the corresponding `NameError` on every series of
  at least 50 candles.  `analyzeTimeframeIntended` is the same engine
  with exactly those two slips read as evidently intended
  (`oil_df = data_store.get('oil_1h')`, and `gold_up` computed
  unconditionally from the last candle); it is used to settle the claims
  about the scoring policy itself;
* the human-readable reason strings accumulated during scoring are
  presentation-only (no claim depends on them past the insufficient-data
  reason) and are omitted from the scoring path of the embedding; the
  `reason` field is kept for the insufficient-data result;
* the VWAP column is computed by the source but never read by the
  scoring policy, so it is not embedded;
* Python's `int()` truncates toward zero (`pyInt`), and `x.upper()` is
  `pyUpper` (ASCII upper-casing, all the engine ever feeds it).
-/

namespace GoldXAU

/-- One OHLCV bar, mirroring the pandas columns the engine reads
(`Open`, `High`, `Low`, `Close`, `Volume`).  Timestamps are never read
by the scoring code and are omitted. -/
structure Candle where
  Open : ℚ
  High : ℚ
  Low : ℚ
  Close : ℚ
  Volume : ℚ
deriving DecidableEq

/-- The last `n` entries of a list (the trailing rolling window). -/
def lastN (n : ℕ) (l : List ℚ) : List ℚ := l.drop (l.length - n)

/-- Arithmetic mean of a list of rationals (`Series.mean`). -/
def listMean (l : List ℚ) : ℚ := l.sum / (l.length : ℚ)

/-- Minimum of a list (`rolling.min` over a full window). -/
def listMin : List ℚ → ℚ
  | [] => 0
  | h :: t => t.foldl min h

/-- Maximum of a list (`rolling.max` over a full window). -/
def listMax : List ℚ → ℚ
  | [] => 0
  | h :: t => t.foldl max h

/-- The close column: `df['Close']`. -/
def closes (cs : List Candle) : List ℚ := cs.map Candle.Close

/-- First differences `df['Close'].diff()`: entry `i` is
`close[i+1] - close[i]` (the leading `NaN` of pandas `diff` is not
represented; where the source masks it to `0`, the `0` is prepended
explicitly, see `rsiLast`). -/
def deltas (l : List ℚ) : List ℚ := List.zipWith (· - ·) l.tail l

/-- Smoothing constant of `ewm(span=s, adjust=False)`: `k = 2/(s+1)`. -/
def emaK (span : ℕ) : ℚ := 2 / (span + 1)

/-- One step of the `adjust=False` exponential recurrence:
`ema_i = close_i * k + ema_{i-1} * (1-k)`. -/
def emaStep (span : ℕ) (e c : ℚ) : ℚ := c * emaK span + e * (1 - emaK span)

/-- Last value of `Close.ewm(span, adjust=False).mean()`: pandas seeds the
recurrence with the first value (`ema_0 = close_0`) and is defined for
every non-empty series, whatever the span. -/
def emaLast (span : ℕ) : List ℚ → Option ℚ
  | [] => none
  | c :: cs => some (cs.foldl (emaStep span) c)

/-- `emaLast` with the (unreachable, guarded by the 50-candle minimum)
empty case defaulted. -/
def emaLastD (span : ℕ) (l : List ℚ) : ℚ := (emaLast span l).getD 0

/-- The whole `ewm(span, adjust=False).mean()` column. -/
def emaSeries (span : ℕ) : List ℚ → List ℚ
  | [] => []
  | c :: cs => cs.scanl (emaStep span) c

/-- Positive part: `delta.where(delta > 0, 0)` (also maps the leading
`NaN` of `diff` to `0`, since `NaN > 0` is false). -/
def posPart (q : ℚ) : ℚ := if 0 < q then q else 0

/-- Negated negative part: `-delta.where(delta < 0, 0)`. -/
def negPart (q : ℚ) : ℚ := if q < 0 then -q else 0

/-- RSI(14) at the last row: 14-window rolling means of the gain/loss
series, `RS = avgGain/avgLoss`, `RSI = 100 - 100/(1+RS)`.
The gain/loss series start with an explicit `0` (the masked leading
`NaN` of `diff`).  `none` models the `NaN` the source produces when the
window is not filled or when `avgGain = avgLoss = 0` (float `0/0`);
when `avgLoss = 0 < avgGain` the float quotient is `+inf` and
`100 - 100/(1+inf)` is exactly `100.0`. -/
def rsiLast (l : List ℚ) : Option ℚ :=
  let gains := 0 :: (deltas l).map posPart
  let losses := 0 :: (deltas l).map negPart
  if gains.length < 14 then none
  else
    let avgGain := (lastN 14 gains).sum / 14
    let avgLoss := (lastN 14 losses).sum / 14
    if avgLoss = 0 then (if avgGain = 0 then none else some 100)
    else some (100 - 100 / (1 + avgGain / avgLoss))

/-- The MACD column: `EMA12 - EMA26`, pointwise. -/
def macdSeries (l : List ℚ) : List ℚ :=
  List.zipWith (· - ·) (emaSeries 12 l) (emaSeries 26 l)

/-- MACD at the last row. -/
def macdLastD (l : List ℚ) : ℚ := (macdSeries l).getLastD 0

/-- Signal line at the last row: `EMA9` of the MACD column. -/
def signalLastD (l : List ℚ) : ℚ := emaLastD 9 (macdSeries l)

/-- Stochastic %K at the last row:
`100 * (close - min(low,14)) / (max(high,14) - min(low,14))`.
`none` models the `NaN` of an unfilled window or of a zero 14-candle
range (the source divides `0/0` for well-formed candles). -/
def stochKLast (cs : List Candle) : Option ℚ :=
  if cs.length < 14 then none
  else
    let w := cs.drop (cs.length - 14)
    let lo := listMin (w.map Candle.Low)
    let hi := listMax (w.map Candle.High)
    if hi - lo = 0 then none
    else some (100 * (((closes cs).getLastD 0 - lo) / (hi - lo)))

/-- Stochastic %D at the last row: 3-window rolling mean of %K, `NaN`
(`none`) when any of the last three %K values is. -/
def stochDLast (cs : List Candle) : Option ℚ := do
  let k0 ← stochKLast cs
  let k1 ← stochKLast cs.dropLast
  let k2 ← stochKLast cs.dropLast.dropLast
  pure ((k0 + k1 + k2) / 3)

/-- True-range column.  Row 0 has `NaN` in both `|high - prevClose|` and
`|low - prevClose|`; `DataFrame.max(axis=1)` skips `NaN`, leaving
`high - low`.  Later rows take the three-way maximum. -/
def trueRanges : List Candle → List ℚ
  | [] => []
  | c0 :: rest =>
    (c0.High - c0.Low) ::
      List.zipWith
        (fun prev cur =>
          max (cur.High - cur.Low) (max |cur.High - prev.Close| |cur.Low - prev.Close|))
        (c0 :: rest) rest

/-- ATR(14) at the last row: 14-window rolling mean of true range. -/
def atrLast (cs : List Candle) : Option ℚ :=
  if cs.length < 14 then none
  else some ((lastN 14 (trueRanges cs)).sum / 14)

/-- `DeltaDelta` (acceleration) at the last row: second difference of the
closes, `NaN` (`none`) while fewer than 3 closes exist. -/
def deltaDeltaLast (l : List ℚ) : Option ℚ :=
  let ds := deltas l
  if ds.length < 2 then none
  else some (ds.getLastD 0 - ds.dropLast.getLastD 0)

/-- Placeholder candle for the (guarded) empty-list case of `lastRow`. -/
def defaultCandle : Candle := ⟨0, 0, 0, 0, 0⟩

/-- The indicator row `last = df.iloc[-1]` after `calculate_indicators`:
every column of the last row that the scoring policy reads. -/
structure Row where
  Open : ℚ
  High : ℚ
  Low : ℚ
  Close : ℚ
  EMA5 : ℚ
  EMA20 : ℚ
  EMA50 : ℚ
  EMA200 : ℚ
  RSI : Option ℚ
  MACD : ℚ
  SignalLine : ℚ
  StochK : Option ℚ
  StochD : Option ℚ
  ATR : Option ℚ
  DeltaDelta : Option ℚ
deriving DecidableEq

/-- Compute the last indicator row of a candle frame. -/
def lastRow (cs : List Candle) : Row :=
  let lc := cs.getLastD defaultCandle
  { Open := lc.Open, High := lc.High, Low := lc.Low, Close := lc.Close
    EMA5 := emaLastD 5 (closes cs), EMA20 := emaLastD 20 (closes cs)
    EMA50 := emaLastD 50 (closes cs), EMA200 := emaLastD 200 (closes cs)
    RSI := rsiLast (closes cs)
    MACD := macdLastD (closes cs), SignalLine := signalLastD (closes cs)
    StochK := stochKLast cs, StochD := stochDLast cs
    ATR := atrLast cs, DeltaDelta := deltaDeltaLast (closes cs) }

/-- Wick-anomaly verdicts of `detect_wick_anomaly`. -/
inductive Wick
  | bullishRejection
  | bearishRejection
deriving DecidableEq

/-- Advanced wick detection: compare the current upper/lower wick with
the mean wick of the previous 10 candles (`df.iloc[-11:-1]`) and with
half the ATR.  Requires at least 15 candles; the upper wick is checked
first. -/
def detectWickAnomaly (cs : List Candle) : Option Wick :=
  if cs.length < 15 then none
  else
    let r := lastRow cs
    let past10 := cs.dropLast.drop (cs.dropLast.length - 10)
    let avgUpper := listMean (past10.map (fun c => c.High - max c.Open c.Close))
    let avgLower := listMean (past10.map (fun c => min c.Open c.Close - c.Low))
    let currUpper := r.High - max r.Open r.Close
    let currLower := min r.Open r.Close - r.Low
    let atr := r.ATR.getD 0
    if avgUpper * (5/2) < currUpper ∧ atr * (1/2) < currUpper then some .bearishRejection
    else if avgLower * (5/2) < currLower ∧ atr * (1/2) < currLower then some .bullishRejection
    else none

/-- The per-request `data_store`: string keys (`"1m"`, …, `"1wk"`,
`"dxy_1h"`, `"oil_1h"`, `"yield_1h"`) to candle frames. -/
def Store := List (String × List Candle)

/-- `data_store.get(k)`. -/
def lookupStore (store : Store) (k : String) : Option (List Candle) :=
  (store.find? (fun p => p.1 == k)).map Prod.snd

/-- Last candle of a stored frame (`data_store.get(k)` followed by
`.iloc[-1]`); an absent frame gives `none`. -/
def lastOf (store : Store) (k : String) : Option Candle :=
  (lookupStore store k).bind List.getLast?

/-- Higher-timeframe trend verdicts of `get_htf_trend`. -/
inductive Trend
  | bullish
  | bearish
  | neutral
deriving DecidableEq

/-- ASCII upper-casing of a character (Python `str.upper` on the inputs
the engine uses). -/
def pyUpperChar (c : Char) : Char :=
  if 'a' ≤ c ∧ c ≤ 'z' then Char.ofNat (c.toNat - 32) else c

/-- Python `s.upper()`. -/
def pyUpper (s : String) : String := ⟨s.data.map pyUpperChar⟩

/-- The fixed `htf_map` dictionary, keyed by upper-cased timeframe.
`"1WK"` is absent, so the weekly timeframe gets no confirmation. -/
def htfMap (k : String) : Option String :=
  if k = "1M" then some "15m"
  else if k = "5M" then some "1h"
  else if k = "15M" then some "4h"
  else if k = "1H" then some "4h"
  else if k = "2H" then some "1d"
  else if k = "4H" then some "1d"
  else if k = "1D" then some "1wk"
  else none

/-- `get_htf_trend`: look up the designated higher timeframe; `NEUTRAL`
when unmapped, absent or shorter than 50 candles; otherwise compare the
last close with its EMA50. -/
def getHtfTrend (store : Store) (tf : String) : Trend :=
  match htfMap (pyUpper tf) with
  | none => .neutral
  | some key =>
    match lookupStore store key with
    | none => .neutral
    | some f =>
      if f.length < 50 then .neutral
      else
        let last := lastRow f
        if last.EMA50 < last.Close then .bullish
        else if last.Close < last.EMA50 then .bearish
        else .neutral

/-- `get_session_profile_dubai`: session name and volatility multiplier
from the UTC hour (Dubai = UTC+4).  The source's `try/except` cannot
fire (the body is total), so the `"MARKET", 1.0` fallback is dead. -/
def sessionProfileDubai (utcHour : ℕ) : String × ℚ :=
  let dubaiHour := (utcHour + 4) % 24
  if 2 ≤ dubaiHour ∧ dubaiHour < 12 then ("ASIAN (RANGE)", 7/10)
  else if 12 ≤ dubaiHour ∧ dubaiHour < 17 then ("LONDON (BREAKOUT)", 6/5)
  else if 17 ≤ dubaiHour ∧ dubaiHour < 21 then ("OVERLAP (STRONGEST)", 8/5)
  else if 21 ≤ dubaiHour ∧ dubaiHour < 23 then ("NY (VOLATILE)", 7/5)
  else ("LATE NY (FADE)", 9/10)

/-- Trend labels of step 1. -/
inductive TrendDir
  | uptrend
  | downtrend
  | sideways
deriving DecidableEq

/-- Step 1 label: `UPTREND` iff `EMA20 > EMA50`, `DOWNTREND` iff
`EMA20 < EMA50`, else `SIDEWAYS`. -/
def trendDirOf (r : Row) : TrendDir :=
  if r.EMA50 < r.EMA20 then .uptrend
  else if r.EMA20 < r.EMA50 then .downtrend
  else .sideways

/-- Step 1 score contribution: `+30` on `EMA20 > EMA50`, `-30` on
`EMA20 < EMA50`, else `0`. -/
def trendContribution (r : Row) : ℚ :=
  if r.EMA50 < r.EMA20 then 30
  else if r.EMA20 < r.EMA50 then -30
  else 0

/-- Step 2 score contribution: `+25` on `RSI > 55`, `-25` on `RSI < 45`,
else `0`.  A `NaN` RSI compares false both ways. -/
def momentumContribution (r : Row) : ℚ :=
  match r.RSI with
  | none => 0
  | some q => if 55 < q then 25 else if q < 45 then -25 else 0

/-- Step 3 score contribution: `±15` when `DeltaDelta` is defined and its
sign agrees with the step-1 trend; disagreement adds nothing. -/
def accelContribution (r : Row) : ℚ :=
  match r.DeltaDelta with
  | none => 0
  | some d =>
    if trendDirOf r = .uptrend ∧ 0 < d then 15
    else if trendDirOf r = .downtrend ∧ d < 0 then -15
    else 0

/-- Step 5 score contribution from the wick anomaly: `+10` bullish
rejection, `-10` bearish rejection. -/
def wickContribution (cs : List Candle) : ℚ :=
  match detectWickAnomaly cs with
  | none => 0
  | some .bullishRejection => 10
  | some .bearishRejection => -10

/-- Steps 1-5 of the running score: trend, RSI momentum, acceleration,
the volatility-trap reset (`score = 0` when the last body exceeds
`3*ATR` with `ATR > 0`), then the wick adjustment. -/
def scoreThroughWick (cs : List Candle) : ℚ :=
  let r := lastRow cs
  let atr := r.ATR.getD 0
  let s3 := trendContribution r + momentumContribution r + accelContribution r
  let s4 := if 3 * atr < |r.Close - r.Open| ∧ 0 < atr then 0 else s3
  s4 + wickContribution cs

/-- Step 6 (intended reading): the DXY/yield blocks set
`correlation_risk` when the companion's last candle moves with gold
(both are expected to move opposite), the oil block scales by `0.9` on
divergence (oil is expected to move with gold), and a set risk flag
scales by `0.6` afterwards. -/
def corrAdj (r : Row) (dxy yld oil : Option Candle) (s : ℚ) : ℚ :=
  let risk : Bool :=
    (match dxy with
     | none => false
     | some d => decide ((d.Open < d.Close) ↔ (r.Open < r.Close))) ||
    (match yld with
     | none => false
     | some y => decide ((y.Open < y.Close) ↔ (r.Open < r.Close)))
  let s2 : ℚ :=
    match oil with
    | none => s
    | some o => if (o.Open < o.Close) ↔ (r.Open < r.Close) then s else s * (9/10)
  if risk then s2 * (3/5) else s2

/-- Step 7: higher-timeframe confirmation; boost agreement by 10, scale a
nonzero score by 0.8 under a neutral higher timeframe, halve on
conflict. -/
def htfAdj (t : Trend) (s : ℚ) : ℚ :=
  if 0 < s ∧ t = .bullish then s + 10
  else if s < 0 ∧ t = .bearish then s - 10
  else if s ≠ 0 ∧ t = .neutral then s * (4/5)
  else if (0 < s ∧ t = .bearish) ∨ (s < 0 ∧ t = .bullish) then s * (1/2)
  else s

/-- The full running score of the scoring policy (steps 1-7, intended
reading of the two unbound names). -/
def scorePipeline (tf : String) (cs : List Candle) (store : Store) : ℚ :=
  htfAdj (getHtfTrend store tf)
    (corrAdj (lastRow cs) (lastOf store "dxy_1h") (lastOf store "yield_1h")
      (lastOf store "oil_1h") (scoreThroughWick cs))

/-- Python `int()`: truncation toward zero. -/
def pyInt (q : ℚ) : ℤ := if q < 0 then -⌊-q⌋ else ⌊q⌋

/-- The three actions. -/
inductive Action
  | buy
  | sell
  | wait
deriving DecidableEq

/-- A populated trade guide (the source formats the three values to two
decimals for display; the exact values are kept here). -/
structure TradeGuide where
  entry : ℚ
  sl : ℚ
  tp : ℚ
deriving DecidableEq

/-- The per-timeframe analysis result.  `score` is the clamped display
score (the `confidence` string of the source renders it as a percent);
`tradeGuide = none` is the `{"entry": "-", "sl": "-", "tp": "-"}`
placeholder; `reason` carries only the insufficient-data text (scoring
reasons are presentation-only and not embedded). -/
structure AnalysisResult where
  timeframe : String
  action : Action
  score : ℤ
  reason : String
  tradeGuide : Option TradeGuide
  nextCandle : Action
deriving DecidableEq

/-- Final decision, prediction and trade guide from the accumulated
score: `display = max(0, min(100, int(50 + score/1.5)))`, BUY at
`display ≥ 65`, SELL at `display ≤ 35`; the trade guide is built exactly
when the action is not WAIT and `ATR > 0`, with stop at `1.5*ATR` and
target at `2.0*ATR` from the close. -/
def finalize (tf : String) (r : Row) (s : ℚ) : AnalysisResult :=
  let display : ℤ := max 0 (min 100 (pyInt (50 + s / (3/2))))
  let action : Action := if 65 ≤ display then .buy else if display ≤ 35 then .sell else .wait
  let nextCandle : Action :=
    if action = .buy ∧ 70 < display then .buy
    else if action = .sell ∧ display < 30 then .sell
    else if action ≠ .wait then action
    else .wait
  let atr := r.ATR.getD 0
  let tradeGuide : Option TradeGuide :=
    if action ≠ .wait ∧ 0 < atr then
      some (if action = .buy
        then ⟨r.Close, r.Close - (3/2) * atr, r.Close + 2 * atr⟩
        else ⟨r.Close, r.Close + (3/2) * atr, r.Close - 2 * atr⟩)
    else none
  { timeframe := pyUpper tf, action := action, score := display, reason := ""
    tradeGuide := tradeGuide, nextCandle := nextCandle }

/-- The immediate WAIT placeholder for a missing, empty or short series
(score 0, explicit reason, empty trade guide). -/
def insufficientResult (tf : String) : AnalysisResult :=
  { timeframe := pyUpper tf, action := .wait, score := 0
    reason := "Insufficient Data", tradeGuide := none, nextCandle := .wait }

/-- `analyze_timeframe` as written: the insufficient-data guard, then the
scoring path, which always dies with a `NameError` — at `gold_up` when
the dxy frame is absent but the yield frame is present (the name is only
assigned inside the dxy block), otherwise at `oil_df` (never assigned in
this scope).  The steps before the failure have no observable effect. -/
def analyzeTimeframe (tf : String) (df : Option (List Candle)) (store : Store) :
    Except String AnalysisResult :=
  match df with
  | none => .ok (insufficientResult tf)
  | some cs =>
    if cs.length < 50 then .ok (insufficientResult tf)
    else
      let _s5 := scoreThroughWick cs
      match lastOf store "dxy_1h" with
      | some _ => .error "NameError: name 'oil_df' is not defined"
      | none =>
        match lastOf store "yield_1h" with
        | some _ => .error "NameError: name 'gold_up' is not defined"
        | none => .error "NameError: name 'oil_df' is not defined"

/-- `analyze_timeframe` with the two unbound names read as evidently
intended (`oil_df = data_store.get('oil_1h')`; `gold_up` computed from
the last candle unconditionally); identical to the source otherwise. -/
def analyzeTimeframeIntended (tf : String) (df : Option (List Candle)) (store : Store) :
    AnalysisResult :=
  match df with
  | none => insufficientResult tf
  | some cs =>
    if cs.length < 50 then insufficientResult tf
    else finalize tf (lastRow cs) (scorePipeline tf cs store)

/-- The fixed timeframe batch of the dashboard route. -/
def orderedTfs : List String := ["1m", "5m", "15m", "1h", "2h", "4h", "1d", "1wk"]

/-- The dashboard loop over the eight timeframes.  The single
`try/except` of the route wraps the whole loop, so the first timeframe
that raises aborts the batch. -/
def dashboardSignals (store : Store) : Except String (List AnalysisResult) :=
  orderedTfs.mapM (fun tf => analyzeTimeframe tf (lookupStore store tf) store)

/-- The signals list of the HTTP response: the computed list on success,
and the `{"error": ..., "signals": []}` payload (empty list) when any
timeframe raised. -/
def dashboardResponseSignals (store : Store) : List AnalysisResult :=
  match dashboardSignals store with
  | .ok rs => rs
  | .error _ => []

/-- The dashboard response head: the route keeps only the session NAME
(`session, _ = get_session_profile_dubai()` discards the multiplier) and
pairs it with the signals. -/
def dashboardResponse (utcHour : ℕ) (store : Store) : String × List AnalysisResult :=
  ((sessionProfileDubai utcHour).1, dashboardResponseSignals store)

/-- Modelled from the spec (§4.1), for comparison with `emaLast`:
`ema[0] = mean(first period closes)`, then the recurrence with
`k = 2/(period+1)`; undefined while fewer than `period` closes exist. -/
def specEmaLast (period : ℕ) (l : List ℚ) : Option ℚ :=
  if l.length < period ∨ period = 0 then none
  else some ((l.drop period).foldl (emaStep period) ((l.take period).sum / (period : ℚ)))

/-- Modelled from the spec (§4.5 step 8), for comparison with
`finalize`: the display score the policy would return if the score's
deviation from neutral were multiplied by the session volatility
multiplier `m` before the rescale. -/
def specSessionWeightedDisplay (m s : ℚ) : ℤ :=
  max 0 (min 100 (pyInt (50 + (m * s) / (3/2))))

/-! ### Concrete input series used by the counterexamples and witnesses -/

/-- A degenerate candle (open = high = low = close). -/
def flatCandle (c : ℚ) : Candle := ⟨c, c, c, c, 1⟩

/-- A candle whose open is the previous close and whose range is spanned
by open and close (no wicks). -/
def candleBetween (po c : ℚ) : Candle := ⟨po, max po c, min po c, c, 1⟩

/-- Build a wickless candle series from a close series. -/
def candlesFromCloses : ℚ → List ℚ → List Candle
  | _, [] => []
  | prev, c :: cs => candleBetween prev c :: candlesFromCloses c cs

/-- 50 flat candles at 100. -/
def flat50 : List Candle := List.replicate 50 (flatCandle 100)

/-- 10 flat candles at 100 (below the 50-candle minimum). -/
def tenCandles : List Candle := List.replicate 10 (flatCandle 100)

/-- 49 flat candles at 100 followed by a spike candle whose body (140)
is 10x the trailing ATR contribution: ATR = 140/14 = 10, body = 140 >
3*ATR. -/
def spike50 : List Candle :=
  List.replicate 49 (flatCandle 100) ++ [⟨100, 240, 100, 240, 1⟩]

/-- Closes producing an ordinary BUY: an early rise (EMA20 > EMA50), a
trailing ±1 oscillation (RSI = 50, no acceleration bonus), ATR = 1. -/
def ordCloses : List ℚ :=
  List.replicate 10 100 ++ List.replicate 24 110 ++
    (List.replicate 8 [(110 : ℚ), 109]).flatten

/-- The ordinary-BUY series. -/
def csOrd : List Candle := candlesFromCloses 100 ordCloses

/-- Closes producing a strong BUY: a steady rise with accelerating final
deltas (RSI = 100, acceleration bonus). -/
def strongCloses : List ℚ :=
  [100, 101, 102, 103, 104, 105, 106, 107, 108, 109, 110, 111, 112, 113, 114, 115,
   116, 117, 118, 119, 120, 121, 122, 123, 124, 125, 126, 127, 128, 129, 130, 131,
   132, 133, 134, 135, 136, 137, 138, 139, 140, 141, 142, 143, 144, 145, 146, 147,
   149, 152]

/-- The strong-BUY series. -/
def csStrong : List Candle := candlesFromCloses 100 strongCloses

/-- Closes whose last row has EMA5 < EMA20, EMA20 > EMA50 and
EMA50 < EMA200: a high first close, a long trough, a recovery, a short
dip. -/
def mixedEmaCloses : List ℚ :=
  [400] ++ List.replicate 35 100 ++ List.replicate 12 280 ++ List.replicate 2 130

/-- The mixed-EMA series for the trend-layering counterexample. -/
def csMixedEma : List Candle := candlesFromCloses 400 mixedEmaCloses

/-- Closes whose last row has RSI > 55 but bearish Stochastic (%K < %D)
and bearish MACD (MACD < Signal): a long flat floor, a sharp rise, a
slow fade. -/
def momentumCloses : List ℚ :=
  List.replicate 31 100 ++
    [103, 106, 109, 112, 115, 118, 121, 124, 127, 130] ++
    [129, 128, 127, 126, 125, 124, 123, 122, 121]

/-- The momentum-trio counterexample series. -/
def csMomentum : List Candle := candlesFromCloses 100 momentumCloses

/-- A store carrying only an hourly gold frame (50 flat candles). -/
def storeHourly : Store := [("1h", flat50)]

/-! ### Helper lemmas -/

/-- The close column of a series built from a close list is that list. -/
theorem closes_candlesFromCloses : ∀ (p : ℚ) (l : List ℚ),
    closes (candlesFromCloses p l) = l := by
  intro p l
  induction l generalizing p with
  | nil => rfl
  | cons c cs ih => simp [candlesFromCloses, closes, candleBetween] at ih ⊢; exact ih c

/-- An empty store holds no frame. -/
theorem lookupStore_nil (k : String) : lookupStore [] k = none := rfl

/-- An empty store holds no companion candle. -/
theorem lastOf_nil (k : String) : lastOf [] k = none := rfl

/-- Higher-timeframe confirmation is neutral against an empty store. -/
theorem getHtfTrend_nil (tf : String) : getHtfTrend [] tf = .neutral := by
  unfold getHtfTrend
  cases htfMap (pyUpper tf) <;> rfl

/-- With no companion candles the correlation step is the identity. -/
theorem corrAdj_skip (r : Row) (s : ℚ) : corrAdj r none none none s = s := rfl

/-- The correlation step never increases the magnitude of the score. -/
theorem corrAdj_abs_le (r : Row) (dxy yld oil : Option Candle) (s : ℚ) :
    |corrAdj r dxy yld oil s| ≤ |s| := by
  have habs : ∀ (q m : ℚ), 0 ≤ m → m ≤ 1 → |q * m| ≤ |q| := by
    intro q m h0 h1
    rw [abs_mul, abs_of_nonneg h0]
    exact mul_le_of_le_one_right (abs_nonneg q) h1
  have hstep : ∀ (q : ℚ) (b : Bool), |q| ≤ |s| → |(if b then q * (3/5) else q)| ≤ |s| := by
    intro q b hq
    cases b
    · simpa using hq
    · simpa using le_trans (habs q (3/5) (by norm_num) (by norm_num)) hq
  simp only [corrAdj]
  apply hstep
  rcases oil with _ | o
  · exact le_refl _
  · dsimp only
    split_ifs
    · exact le_refl _
    · exact habs _ _ (by norm_num) (by norm_num)

/-- The correlation step maps a zero score to zero. -/
theorem corrAdj_zero (r : Row) (dxy yld oil : Option Candle) :
    corrAdj r dxy yld oil 0 = 0 := by
  have hstep : ∀ (q : ℚ) (b : Bool), q = 0 → (if b then q * (3/5) else q) = 0 := by
    intro q b hq
    cases b <;> simp [hq]
  simp only [corrAdj]
  apply hstep
  rcases oil with _ | o
  · rfl
  · dsimp only
    split_ifs <;> norm_num

/-- The higher-timeframe step maps a zero score to zero. -/
theorem htfAdj_zero (t : Trend) : htfAdj t 0 = 0 := by
  unfold htfAdj
  split_ifs with h1 h2 h3 h4
  · exact absurd h1.1 (lt_irrefl 0)
  · exact absurd h2.1 (lt_irrefl 0)
  · exact absurd rfl h3.1
  · rcases h4 with h | h <;> exact absurd h.1 (lt_irrefl 0)
  · rfl

/-- Under a neutral higher timeframe a nonzero score is dampened by
0.8. -/
theorem htfAdj_neutral (s : ℚ) (hs : s ≠ 0) : htfAdj .neutral s = s * (4/5) := by
  rw [htfAdj, if_neg (fun h => Trend.noConfusion h.2), if_neg (fun h => Trend.noConfusion h.2),
    if_pos ⟨hs, rfl⟩]

/-- The higher-timeframe step moves a score of magnitude at most 10 to a
score of magnitude at most 20. -/
theorem htfAdj_abs_le (t : Trend) (s : ℚ) (h : |s| ≤ 10) : |htfAdj t s| ≤ 20 := by
  rcases abs_le.1 h with ⟨hl, hr⟩
  unfold htfAdj
  split_ifs with h1 h2 h3 h4 <;> rw [abs_le] <;> constructor <;> linarith

/-- The wick adjustment contributes at most 10 in magnitude. -/
theorem wickContribution_abs_le (cs : List Candle) : |wickContribution cs| ≤ 10 := by
  unfold wickContribution
  rcases detectWickAnomaly cs with _ | w
  · norm_num
  · cases w <;> norm_num

/-- Under the volatility trap (body above three ATRs, positive ATR) the
score after step 5 is just the wick adjustment. -/
theorem scoreThroughWick_trap (cs : List Candle)
    (hatr : 0 < (lastRow cs).ATR.getD 0)
    (hbody : 3 * ((lastRow cs).ATR.getD 0) < |(lastRow cs).Close - (lastRow cs).Open|) :
    scoreThroughWick cs = wickContribution cs := by
  simp only [scoreThroughWick]
  rw [if_pos ⟨hbody, hatr⟩, zero_add]

/-- A score of magnitude at most 20 rescales strictly inside both
decision thresholds, so the action is WAIT. -/
theorem finalize_wait (tf : String) (r : Row) (s : ℚ) (h : |s| ≤ 20) :
    (finalize tf r s).action = .wait := by
  rcases abs_le.1 h with ⟨hl, hr⟩
  have hq0 : ¬ (50 + s / (3/2) < 0) := by push_neg; linarith
  have hfl : (36 : ℤ) ≤ ⌊50 + s / (3/2)⌋ := by
    rw [Int.le_floor]
    push_cast
    linarith
  have hfu : ⌊50 + s / (3/2)⌋ ≤ 63 := by
    have : ⌊50 + s / (3/2)⌋ < 64 := by
      rw [Int.floor_lt]
      push_cast
      linarith
    omega
  have hd : max 0 (min 100 (pyInt (50 + s / (3/2)))) = ⌊50 + s / (3/2)⌋ := by
    rw [pyInt, if_neg hq0, min_eq_right (by omega), max_eq_right (by omega)]
  simp only [finalize, hd]
  rw [if_neg (by omega), if_neg (by omega)]

/-! ### Claim C1 -/

/-- Claim C1: for every input, the confidence/score of the analysis
result returned by `analyze_timeframe` lies in [0,100] — the faithful
engine only ever returns the insufficient-data placeholder (score 0),
and the intended engine clamps the rescaled score, so no sequence of
adjustments can leave the bounds. -/
theorem C1_confidence_bounds :
    (∀ tf df store r, analyzeTimeframe tf df store = .ok r →
      0 ≤ r.score ∧ r.score ≤ 100) ∧
    (∀ tf df store, 0 ≤ (analyzeTimeframeIntended tf df store).score ∧
      (analyzeTimeframeIntended tf df store).score ≤ 100) := by
  constructor
  · intro tf df store r h
    rcases df with _ | cs
    · simp only [analyzeTimeframe, Except.ok.injEq] at h
      rw [← h]
      norm_num [insufficientResult]
    · simp only [analyzeTimeframe] at h
      split at h
      · simp only [Except.ok.injEq] at h
        rw [← h]
        norm_num [insufficientResult]
      · split at h <;> [skip; split at h] <;> cases h
  · intro tf df store
    rcases df with _ | cs
    · norm_num [analyzeTimeframeIntended, insufficientResult]
    · simp only [analyzeTimeframeIntended]
      split
      · norm_num [insufficientResult]
      · refine ⟨le_max_left 0 _, ?_⟩
        simp only [finalize]
        exact max_le (by norm_num) (min_le_left _ _)

/-- Witness for C1 at a concrete input. -/
theorem C1_confidence_bounds_witness :
    0 ≤ (insufficientResult "1m").score ∧ (insufficientResult "1m").score ≤ 100 :=
  C1_confidence_bounds.1 "1m" none [] (insufficientResult "1m") rfl

/-! ### Claim C2 -/

/-- Claim C2: a missing, empty, or shorter-than-50 target series makes
`analyze_timeframe` return the fixed WAIT placeholder with the explicit
insufficient-data reason and the empty trade guide, independently of the
price content (no indicator computation reaches the result). -/
theorem C2_insufficient_data :
    ∀ tf df store, (df = none ∨ ∃ cs, df = some cs ∧ cs.length < 50) →
      analyzeTimeframe tf df store = .ok (insufficientResult tf) := by
  intro tf df store h
  rcases h with h | ⟨cs, rfl, hlen⟩
  · subst h; rfl
  · simp only [analyzeTimeframe]
    rw [if_pos hlen]

/-- Witness for C2: a 10-candle series yields the WAIT placeholder. -/
theorem C2_insufficient_data_witness :
    analyzeTimeframe "1h" (some tenCandles) [] = .ok (insufficientResult "1h") :=
  C2_insufficient_data "1h" (some tenCandles) []
    (Or.inr ⟨tenCandles, rfl, by simp [tenCandles]⟩)

/-! ### Claim C3 -/

/-- Claim C3 fails on the code (code bug): with a 50-candle hourly frame,
the scoring path dies with `NameError` on the unbound `oil_df` (and, when
only the yield companion is present, already on `gold_up`), so a missing
companion is an error rather than a skipped adjustment; and because the
dashboard wraps the whole timeframe loop in a single `try`, the one
failing timeframe empties the entire batch even though other timeframes
(here `1m`, missing data) would return fine on their own. -/
theorem C3_companion_and_batch :
    analyzeTimeframe "1h" (some flat50) storeHourly =
      .error "NameError: name 'oil_df' is not defined" ∧
    analyzeTimeframe "1h" (some flat50) (("yield_1h", flat50) :: storeHourly) =
      .error "NameError: name 'gold_up' is not defined" ∧
    analyzeTimeframe "1m" none storeHourly = .ok (insufficientResult "1m") ∧
    dashboardResponseSignals storeHourly = [] := by
  refine ⟨rfl, rfl, rfl, rfl⟩

/-! ### Claim C4 -/

/-- Claim C4 describes the volatility-trap override correctly, but the
code dies first (code bug): on the spike input the source raises the
`oil_df` NameError before returning any action.  Under the intended
reading of the two unbound names the override does dominate: after the
reset the score can move by at most 10 (wick), only shrink under
correlation, and end within [-20, 20] after HTF, so the rescaled display
stays in [36, 63] — strictly inside both decision thresholds — and the
action is WAIT for every store and timeframe. -/
theorem C4_volatility_trap :
    analyzeTimeframe "1h" (some spike50) [] =
      .error "NameError: name 'oil_df' is not defined" ∧
    ∀ tf cs store, 50 ≤ cs.length →
      0 < (lastRow cs).ATR.getD 0 →
      3 * ((lastRow cs).ATR.getD 0) < |(lastRow cs).Close - (lastRow cs).Open| →
      (analyzeTimeframeIntended tf (some cs) store).action = .wait := by
  refine ⟨rfl, ?_⟩
  intro tf cs store hlen hatr hbody
  have h5 : |scoreThroughWick cs| ≤ 10 := by
    rw [scoreThroughWick_trap cs hatr hbody]
    exact wickContribution_abs_le cs
  have h6 : |corrAdj (lastRow cs) (lastOf store "dxy_1h") (lastOf store "yield_1h")
      (lastOf store "oil_1h") (scoreThroughWick cs)| ≤ 10 :=
    le_trans (corrAdj_abs_le _ _ _ _ _) h5
  have h7 : |scorePipeline tf cs store| ≤ 20 :=
    htfAdj_abs_le (getHtfTrend store tf) _ h6
  simp only [analyzeTimeframeIntended]
  rw [if_neg (by omega)]
  exact finalize_wait tf (lastRow cs) _ h7

/-- Witness for C4 at the spike series: ATR is 10, the body is 140
(10 times the ATR), and the intended engine returns WAIT. -/
theorem C4_volatility_trap_witness :
    50 ≤ spike50.length ∧ 0 < ((lastRow spike50).ATR.getD 0) ∧
    3 * ((lastRow spike50).ATR.getD 0) < |(lastRow spike50).Close - (lastRow spike50).Open| ∧
    (analyzeTimeframeIntended "1h" (some spike50) []).action = .wait := by
  have h1 : (50 : ℕ) ≤ spike50.length := by simp [spike50]
  have hatr : (lastRow spike50).ATR.getD 0 = 10 := by
    norm_num [lastRow, atrLast, trueRanges, lastN, spike50, flatCandle, List.replicate,
      max_def, min_def, abs_sub_comm]
  have hcl : (lastRow spike50).Close = 240 := by
    norm_num [lastRow, spike50, List.getLastD_concat]
  have hop : (lastRow spike50).Open = 100 := by
    norm_num [lastRow, spike50, List.getLastD_concat]
  refine ⟨h1, ?_, ?_, ?_⟩
  · rw [hatr]; norm_num
  · rw [hatr, hcl, hop]; norm_num
  · exact C4_volatility_trap.2 "1h" spike50 [] h1 (by rw [hatr]; norm_num)
      (by rw [hatr, hcl, hop]; norm_num)

/-! ### Flat-series lemmas (claim C9) -/

/-- Folding a function that fixes `c` over copies of `c` stays at `c`. -/
theorem foldl_replicate_fixed (f : ℚ → ℚ → ℚ) (c : ℚ) (h : f c c = c) :
    ∀ m, List.foldl f c (List.replicate m c) = c := by
  intro m
  induction m with
  | zero => rfl
  | succ k ih => rw [List.replicate_succ, List.foldl_cons, h]; exact ih

/-- The closes of a flat series. -/
theorem closes_replicate_flat (n : ℕ) (c : ℚ) :
    closes (List.replicate n (flatCandle c)) = List.replicate n c := by
  simp [closes, List.map_replicate, flatCandle]

/-- The deltas of a constant close series are all zero. -/
theorem deltas_replicate (n : ℕ) (c : ℚ) :
    deltas (List.replicate n c) = List.replicate (n - 1) 0 := by
  rw [deltas, List.tail_replicate, List.zipWith_replicate,
    min_eq_left (Nat.sub_le n 1), sub_self]

/-- The last candle of a nonempty flat series. -/
theorem getLastD_replicate_pos {α : Type} (n : ℕ) (a d : α) (h : 1 ≤ n) :
    (List.replicate n a).getLastD d = a := by
  rw [List.getLastD_eq_getLast?, List.getLast?_replicate, if_neg (by omega), Option.getD_some]

/-- Every EMA of a nonempty constant close series equals the close. -/
theorem emaLast_replicate (span n : ℕ) (c : ℚ) (h : 1 ≤ n) :
    emaLast span (List.replicate n c) = some c := by
  rcases n with _ | m
  · omega
  · rw [List.replicate_succ, emaLast,
      foldl_replicate_fixed (emaStep span) c (by rw [emaStep]; ring) m]

/-- RSI of a constant close series is `NaN` (`none`): both rolling
averages vanish and the source divides `0/0`. -/
theorem rsiLast_replicate (n : ℕ) (c : ℚ) (h : 14 ≤ n) :
    rsiLast (List.replicate n c) = none := by
  have hzero : ∀ g : ℚ → ℚ, g 0 = 0 →
      (0:ℚ) :: (deltas (List.replicate n c)).map g = List.replicate n 0 := by
    intro g hg
    rw [deltas_replicate, List.map_replicate, hg]
    rcases n with _ | m
    · omega
    · rw [Nat.add_sub_cancel]
      exact (List.replicate_succ _ _).symm
  have hsum : (lastN 14 (List.replicate n (0:ℚ))).sum = 0 := by
    rw [lastN, List.length_replicate, List.drop_replicate, List.sum_replicate, smul_zero]
  simp only [rsiLast, hzero posPart (by simp [posPart]), hzero negPart (by simp [negPart])]
  rw [if_neg (by rw [List.length_replicate]; omega), hsum]
  norm_num

/-- The true ranges of a flat series are all zero. -/
theorem trueRanges_replicate_flat (n : ℕ) (c : ℚ) :
    trueRanges (List.replicate n (flatCandle c)) = List.replicate n 0 := by
  rcases n with _ | m
  · rfl
  · rw [List.replicate_succ, trueRanges, ← List.replicate_succ, List.zipWith_replicate,
      min_eq_right (Nat.le_succ m)]
    simp [flatCandle, List.replicate_succ]

/-- ATR of a flat series with a filled window is zero. -/
theorem atrLast_replicate_flat (n : ℕ) (c : ℚ) (h : 14 ≤ n) :
    atrLast (List.replicate n (flatCandle c)) = some 0 := by
  have hsum : (lastN 14 (List.replicate n (0:ℚ))).sum = 0 := by
    rw [lastN, List.length_replicate, List.drop_replicate, List.sum_replicate, smul_zero]
  rw [atrLast, if_neg (by rw [List.length_replicate]; omega), trueRanges_replicate_flat, hsum]
  norm_num

/-- A flat series triggers no wick anomaly: all wicks are zero and the
strict comparisons fail. -/
theorem detectWickAnomaly_replicate_flat (n : ℕ) (c : ℚ) :
    detectWickAnomaly (List.replicate n (flatCandle c)) = none := by
  by_cases hn : (List.replicate n (flatCandle c)).length < 15
  · rw [detectWickAnomaly, if_pos hn]
  · have hn' : 15 ≤ n := by rw [List.length_replicate] at hn; omega
    have hlastc : (List.replicate n (flatCandle c)).getLast? = some (flatCandle c) := by
      rw [List.getLast?_replicate, if_neg (by omega)]
    have hpast : (List.replicate n (flatCandle c)).dropLast.drop
        ((List.replicate n (flatCandle c)).dropLast.length - 10) =
        List.replicate 10 (flatCandle c) := by
      rw [List.dropLast_replicate, List.length_replicate, List.drop_replicate]
      congr 1
      omega
    have hH : (flatCandle c).High = c := rfl
    have hO : (flatCandle c).Open = c := rfl
    have hL : (flatCandle c).Low = c := rfl
    have hC : (flatCandle c).Close = c := rfl
    simp only [detectWickAnomaly, hpast]
    rw [if_neg hn]
    norm_num [lastRow, hlastc, Option.getD_some, hH, hO, hL, hC, listMean,
      List.map_replicate, List.sum_replicate, List.length_replicate, max_self, min_self,
      sub_self, smul_zero]

/-- The running score of a flat series through step 5 is zero. -/
theorem scoreThroughWick_replicate_flat (n : ℕ) (c : ℚ) (h : 14 ≤ n) :
    scoreThroughWick (List.replicate n (flatCandle c)) = 0 := by
  have hema : ∀ span, emaLastD span (closes (List.replicate n (flatCandle c))) = c := by
    intro span
    rw [closes_replicate_flat, emaLastD, emaLast_replicate span n c (by omega),
      Option.getD_some]
  have htrend : trendContribution (lastRow (List.replicate n (flatCandle c))) = 0 := by
    simp only [trendContribution, lastRow, hema]
    rw [if_neg (lt_irrefl c), if_neg (lt_irrefl c)]
  have hdir : trendDirOf (lastRow (List.replicate n (flatCandle c))) = .sideways := by
    simp only [trendDirOf, lastRow, hema]
    rw [if_neg (lt_irrefl c), if_neg (lt_irrefl c)]
  have hmom : momentumContribution (lastRow (List.replicate n (flatCandle c))) = 0 := by
    simp only [momentumContribution, lastRow, closes_replicate_flat,
      rsiLast_replicate n c h]
  have haccel : accelContribution (lastRow (List.replicate n (flatCandle c))) = 0 := by
    rcases hdd : (lastRow (List.replicate n (flatCandle c))).DeltaDelta with _ | d
    · simp [accelContribution, hdd]
    · simp [accelContribution, hdd, hdir]
  have hatr : (lastRow (List.replicate n (flatCandle c))).ATR.getD 0 = 0 := by
    simp only [lastRow]
    rw [atrLast_replicate_flat n c h, Option.getD_some]
  have hwick : wickContribution (List.replicate n (flatCandle c)) = 0 := by
    rw [wickContribution, detectWickAnomaly_replicate_flat]
  simp only [scoreThroughWick, htrend, hmom, haccel, hatr, hwick]
  rw [if_neg (by rintro ⟨-, h1⟩; exact absurd h1 (lt_irrefl 0))]
  norm_num

/-! ### Claim C9 -/

/-- Claim C9 is false on the code at its RSI clause: a flat 50-candle
series makes both rolling averages zero, the source divides `0/0`, and
the RSI of the last row is `NaN` (modelled `none`) — not a defined
neutral value near 50. -/
theorem C9_rsi_counterexample :
    (lastRow flat50).RSI = none ∧ (lastRow flat50).RSI ≠ some 50 := by
  have h : (lastRow flat50).RSI = none := by
    simp only [lastRow, flat50, closes_replicate_flat]
    exact rsiLast_replicate 50 100 (by omega)
  exact ⟨h, by rw [h]; exact Option.noConfusion⟩

/-- Claim C9 amended: on a flat series of at least 50 candles the RSI is
`NaN` (`none`, behaviourally neutral: both threshold comparisons fail),
every EMA equals the close, ATR is 0, and (with the unbound-name slip
read as intended) the returned action is WAIT for every store; and when
the last 14 deltas are all positive (`avgLoss = 0` with nonzero gains)
the RSI is exactly 100, not infinite. -/
theorem C9_flat_amended :
    (∀ n c, 50 ≤ n →
      (lastRow (List.replicate n (flatCandle c))).RSI = none ∧
      (∀ span, emaLastD span (closes (List.replicate n (flatCandle c))) = c) ∧
      (lastRow (List.replicate n (flatCandle c))).ATR = some 0 ∧
      (∀ tf store,
        (analyzeTimeframeIntended tf (some (List.replicate n (flatCandle c))) store).action =
          .wait)) ∧
    (∀ l : List ℚ, 15 ≤ l.length → (∀ d ∈ lastN 14 (deltas l), 0 < d) →
      rsiLast l = some 100) := by
  constructor
  · intro n c hn
    refine ⟨?_, ?_, ?_, ?_⟩
    · simp only [lastRow, closes_replicate_flat]
      exact rsiLast_replicate n c (by omega)
    · intro span
      rw [closes_replicate_flat, emaLastD, emaLast_replicate span n c (by omega),
        Option.getD_some]
    · simp only [lastRow]
      exact atrLast_replicate_flat n c (by omega)
    · intro tf store
      have hpipe : scorePipeline tf (List.replicate n (flatCandle c)) store = 0 := by
        rw [scorePipeline, scoreThroughWick_replicate_flat n c (by omega), corrAdj_zero,
          htfAdj_zero]
      simp only [analyzeTimeframeIntended]
      rw [if_neg (by rw [List.length_replicate]; omega), hpipe]
      exact finalize_wait tf _ 0 (by norm_num)
  · intro l hlen hpos
    have hdl : (deltas l).length = l.length - 1 := by
      rw [deltas, List.length_zipWith, List.length_tail]
      omega
    have hcons : ∀ g : ℚ → ℚ,
        lastN 14 ((0:ℚ) :: (deltas l).map g) = (lastN 14 (deltas l)).map g := by
      intro g
      rw [lastN, lastN, List.length_cons, List.length_map]
      have harith : (deltas l).length + 1 - 14 = ((deltas l).length - 14) + 1 := by omega
      rw [harith, List.drop_succ_cons, List.map_drop]
    have hgain : 0 < (lastN 14 ((0:ℚ) :: (deltas l).map posPart)).sum := by
      rw [hcons]
      apply List.sum_pos
      · intro x hx
        rcases List.mem_map.1 hx with ⟨d, hd, rfl⟩
        have hdpos := hpos d hd
        simp [posPart, hdpos]
      · have : ((lastN 14 (deltas l)).map posPart).length = 14 := by
          rw [List.length_map, lastN, List.length_drop]
          omega
        intro hemp
        rw [hemp] at this
        exact absurd this (by norm_num)
    have hloss : (lastN 14 ((0:ℚ) :: (deltas l).map negPart)).sum = 0 := by
      rw [hcons]
      apply List.sum_eq_zero
      intro x hx
      rcases List.mem_map.1 hx with ⟨d, hd, rfl⟩
      have hdpos := hpos d hd
      simp [negPart, asymm hdpos]
    simp only [rsiLast]
    rw [if_neg (by rw [List.length_cons, List.length_map]; omega), hloss]
    rw [if_pos (by norm_num), if_neg (by positivity)]

/-- Witness for C9 at a flat 50-candle series and an explicitly rising
16-close series. -/
theorem C9_flat_amended_witness :
    (lastRow (List.replicate 50 (flatCandle 100))).RSI = none ∧
    (analyzeTimeframeIntended "1h" (some (List.replicate 50 (flatCandle 100))) []).action =
      .wait ∧
    rsiLast [0, 1, 2, 3, 4, 5, 6, 7, 8, 9, 10, 11, 12, 13, 14, 15] = some 100 := by
  have h := C9_flat_amended.1 50 100 (by norm_num)
  refine ⟨h.1, h.2.2.2 "1h" [], ?_⟩
  apply C9_flat_amended.2
  · norm_num
  · intro d hd
    norm_num [deltas, lastN] at hd
    rw [hd]
    norm_num

/-! ### Claim C6 -/

/-- Claim C6 is false on the code: the trend step reads only EMA20 vs
EMA50.  At the concrete series `csMixedEma` the three pairwise
comparisons of the claim are short-term bearish (EMA5 < EMA20) and
long-term bearish (EMA50 < EMA200) with only the middle pair bullish —
a 2-of-3 bearish majority — yet the trend contribution is the full
bullish `+30`, so there is no tiering and the sign does not follow the
majority. -/
theorem C6_trend_counterexample :
    (lastRow csMixedEma).EMA5 < (lastRow csMixedEma).EMA20 ∧
    (lastRow csMixedEma).EMA50 < (lastRow csMixedEma).EMA20 ∧
    (lastRow csMixedEma).EMA50 < (lastRow csMixedEma).EMA200 ∧
    trendContribution (lastRow csMixedEma) = 30 := by
  have hproj5 : (lastRow csMixedEma).EMA5 = emaLastD 5 mixedEmaCloses := by
    simp only [lastRow, csMixedEma, closes_candlesFromCloses]
  have hproj20 : (lastRow csMixedEma).EMA20 = emaLastD 20 mixedEmaCloses := by
    simp only [lastRow, csMixedEma, closes_candlesFromCloses]
  have hproj50 : (lastRow csMixedEma).EMA50 = emaLastD 50 mixedEmaCloses := by
    simp only [lastRow, csMixedEma, closes_candlesFromCloses]
  have hproj200 : (lastRow csMixedEma).EMA200 = emaLastD 200 mixedEmaCloses := by
    simp only [lastRow, csMixedEma, closes_candlesFromCloses]
  have h520 : emaLastD 5 mixedEmaCloses < emaLastD 20 mixedEmaCloses := by
    norm_num [emaLastD, emaLast, emaStep, emaK, mixedEmaCloses, List.replicate]
  have h5020 : emaLastD 50 mixedEmaCloses < emaLastD 20 mixedEmaCloses := by
    norm_num [emaLastD, emaLast, emaStep, emaK, mixedEmaCloses, List.replicate]
  have h50200 : emaLastD 50 mixedEmaCloses < emaLastD 200 mixedEmaCloses := by
    norm_num [emaLastD, emaLast, emaStep, emaK, mixedEmaCloses, List.replicate]
  refine ⟨by rw [hproj5, hproj20]; exact h520, by rw [hproj50, hproj20]; exact h5020,
    by rw [hproj50, hproj200]; exact h50200, ?_⟩
  rw [trendContribution, hproj20, hproj50, if_pos h5020]

/-- Claim C6 amended: the trend contribution is a function of the single
comparison EMA20 vs EMA50 (EMA5 and EMA200 never enter): `+30` when
EMA20 > EMA50, `-30` when EMA20 < EMA50, else `0`. -/
theorem C6_trend_amended :
    ∀ r r' : Row, r.EMA20 = r'.EMA20 → r.EMA50 = r'.EMA50 →
      trendContribution r = trendContribution r' ∧
      (0 < trendContribution r ↔ r.EMA50 < r.EMA20) ∧
      (trendContribution r < 0 ↔ r.EMA20 < r.EMA50) ∧
      (trendContribution r = 0 ↔ r.EMA20 = r.EMA50) := by
  intro r r' h20 h50
  refine ⟨by rw [trendContribution, trendContribution, h20, h50], ?_, ?_, ?_⟩ <;>
      rw [trendContribution] <;> split_ifs with h1 h2
  · norm_num [h1]
  · norm_num
    exact le_of_lt h2
  · norm_num
    exact not_lt.1 h1
  · norm_num
    exact le_of_lt h1
  · norm_num [h2]
  · norm_num
    exact not_lt.1 h2
  · norm_num
    intro hh
    linarith
  · norm_num
    intro hh
    linarith
  · norm_num
    exact le_antisymm (not_lt.1 h1) (not_lt.1 h2)

/-- Witness for the amended C6 at two concrete indicator rows that agree
on EMA20/EMA50 but differ wildly on EMA5 and EMA200. -/
theorem C6_trend_amended_witness :
    trendContribution ⟨0, 0, 0, 0, 1, 5, 3, 9, none, 0, 0, none, none, none, none⟩ =
      trendContribution ⟨0, 0, 0, 0, 7, 5, 3, 2, none, 0, 0, none, none, none, none⟩ ∧
    (0 < trendContribution ⟨0, 0, 0, 0, 1, 5, 3, 9, none, 0, 0, none, none, none, none⟩ ↔
      (3 : ℚ) < 5) := by
  have h := C6_trend_amended
    ⟨0, 0, 0, 0, 1, 5, 3, 9, none, 0, 0, none, none, none, none⟩
    ⟨0, 0, 0, 0, 7, 5, 3, 2, none, 0, 0, none, none, none, none⟩ rfl rfl
  exact ⟨h.1, h.2.1⟩

/-! ### Claim C7 -/

/-- Claim C7 is false on the code: the momentum step reads only RSI.  At
the concrete series `csMomentum` the RSI is 62.5 (> 55, bullish) while
both other trio members are bearish — %K = 40 is below %D = 1460/27 ≈
54.1 (with both inside the 20/80 bounds) and MACD is below the Signal
line — yet the momentum contribution is the full bullish `+25`: RSI
alone determines the bonus against the 2-of-3 bearish majority. -/
theorem C7_momentum_counterexample :
    (lastRow csMomentum).RSI = some (125/2) ∧ ((55 : ℚ) < 125/2) ∧
    (lastRow csMomentum).StochK = some 40 ∧
    (lastRow csMomentum).StochD = some (1460/27) ∧
    ((40 : ℚ) < 1460/27) ∧ ((20 : ℚ) < 40) ∧ ((1460/27 : ℚ) < 80) ∧
    (lastRow csMomentum).MACD < (lastRow csMomentum).SignalLine ∧
    momentumContribution (lastRow csMomentum) = 25 := by
  have hrsi : (lastRow csMomentum).RSI = some (125/2) := by
    norm_num [lastRow, csMomentum, closes_candlesFromCloses, rsiLast, deltas, lastN,
      posPart, negPart, momentumCloses, List.replicate]
  refine ⟨hrsi, by norm_num, ?_, ?_, by norm_num, by norm_num, by norm_num, ?_, ?_⟩
  · norm_num [lastRow, stochKLast, csMomentum, candlesFromCloses, candleBetween,
      momentumCloses, List.replicate, listMin, listMax, closes, max_def, min_def]
  · norm_num [lastRow, stochDLast, stochKLast, csMomentum, candlesFromCloses, candleBetween,
      momentumCloses, List.replicate, listMin, listMax, closes, max_def, min_def, Option.bind]
  · norm_num [lastRow, macdLastD, signalLastD, macdSeries, emaSeries, emaLastD, emaLast,
      emaStep, emaK, csMomentum, closes_candlesFromCloses, momentumCloses, List.replicate]
  · rw [momentumContribution, hrsi]
    norm_num

/-- Claim C7 amended: the momentum bonus is a function of RSI alone
(`+25` iff RSI is defined and above 55, `-25` iff defined and below 45,
else `0`); Stochastic and MACD are computed but never read by it. -/
theorem C7_momentum_amended :
    ∀ r r' : Row, r.RSI = r'.RSI →
      momentumContribution r = momentumContribution r' ∧
      (momentumContribution r = 25 ↔ ∃ q, r.RSI = some q ∧ 55 < q) ∧
      (momentumContribution r = -25 ↔ ∃ q, r.RSI = some q ∧ q < 45) := by
  intro r r' hr
  refine ⟨by rw [momentumContribution, momentumContribution, hr], ?_, ?_⟩ <;>
      rcases hq : r.RSI with _ | q
  · simp [momentumContribution, hq]
  · simp only [momentumContribution, hq]
    split_ifs with h1 h2
    · exact ⟨fun _ => ⟨q, rfl, h1⟩, fun _ => rfl⟩
    · constructor
      · intro hh; norm_num at hh
      · rintro ⟨q', hq', hlt⟩
        obtain rfl : q = q' := Option.some.inj hq'
        linarith
    · constructor
      · intro hh; norm_num at hh
      · rintro ⟨q', hq', hlt⟩
        obtain rfl : q = q' := Option.some.inj hq'
        exact absurd hlt h1
  · simp [momentumContribution, hq]
  · simp only [momentumContribution, hq]
    split_ifs with h1 h2
    · constructor
      · intro hh; norm_num at hh
      · rintro ⟨q', hq', hlt⟩
        obtain rfl : q = q' := Option.some.inj hq'
        linarith
    · exact ⟨fun _ => ⟨q, rfl, h2⟩, fun _ => rfl⟩
    · constructor
      · intro hh; norm_num at hh
      · rintro ⟨q', hq', hlt⟩
        obtain rfl : q = q' := Option.some.inj hq'
        exact absurd hlt h2

/-- Witness for the amended C7 at two rows sharing RSI 60 but with
opposite Stochastic and MACD readings. -/
theorem C7_momentum_amended_witness :
    momentumContribution ⟨0, 0, 0, 0, 0, 0, 0, 0, some 60, 1, 2, some 10, some 90, none, none⟩ =
      momentumContribution
        ⟨0, 0, 0, 0, 0, 0, 0, 0, some 60, 2, 1, some 90, some 10, none, none⟩ ∧
    (momentumContribution
        ⟨0, 0, 0, 0, 0, 0, 0, 0, some 60, 1, 2, some 10, some 90, none, none⟩ = 25 ↔
      ∃ q, (some (60:ℚ) = some q ∧ 55 < q)) := by
  have h := C7_momentum_amended
    ⟨0, 0, 0, 0, 0, 0, 0, 0, some 60, 1, 2, some 10, some 90, none, none⟩
    ⟨0, 0, 0, 0, 0, 0, 0, 0, some 60, 2, 1, some 90, some 10, none, none⟩ rfl
  exact ⟨h.1, h.2.1⟩

/-! ### Claim C8 -/

/-- Claim C8 is false on the code: pandas `ewm(span, adjust=False)` is
defined from the very first close (seeded `ema_0 = close_0`), so EMA200
of a one-candle series is the close, not undefined; and on a
window-filled series the values differ from the spec recurrence seeded
with the mean of the first `period` closes. -/
theorem C8_ema_counterexample :
    emaLast 200 [7] = some 7 ∧ specEmaLast 200 [7] = none ∧
    emaLast 5 [0, 0, 0, 0, 12] = some 4 ∧ specEmaLast 5 [0, 0, 0, 0, 12] = some (12/5) ∧
    ((4 : ℚ) ≠ 12/5) := by
  refine ⟨rfl, ?_, ?_, ?_, by norm_num⟩
  · norm_num [specEmaLast]
  · norm_num [emaLast, emaStep, emaK]
  · norm_num [specEmaLast, emaStep, emaK]

/-- Claim C8 amended: the engine's EMA is the `adjust=False` pandas
recurrence — defined exactly on nonempty series, seeded with the first
close, and extended by `ema = close*k + ema'*(1-k)` with
`k = 2/(span+1)`. -/
theorem C8_ema_amended :
    (∀ span (l : List ℚ), (emaLast span l).isSome ↔ l ≠ []) ∧
    (∀ span (c : ℚ), emaLast span [c] = some c) ∧
    (∀ span (l : List ℚ) (c : ℚ), l ≠ [] →
      emaLast span (l ++ [c]) =
        (emaLast span l).map (fun e => c * emaK span + e * (1 - emaK span))) := by
  refine ⟨?_, ?_, ?_⟩
  · intro span l
    cases l <;> simp [emaLast]
  · intro span c
    rfl
  · intro span l c hl
    rcases l with _ | ⟨h0, t⟩
    · exact absurd rfl hl
    · rw [List.cons_append, emaLast, emaLast, List.foldl_append]
      rfl

/-- Witness for the amended C8: one recurrence step from a singleton
series. -/
theorem C8_ema_amended_witness :
    emaLast 5 [1, 2] = some (2 * emaK 5 + 1 * (1 - emaK 5)) := by
  have h := C8_ema_amended.2.2 5 [1] 2 (by simp)
  simpa [emaLast] using h

/-! ### Evaluation of the ordinary and strong BUY series -/

/-- A close-built series has one candle per close. -/
theorem length_candlesFromCloses : ∀ (p : ℚ) (l : List ℚ),
    (candlesFromCloses p l).length = l.length := by
  intro p l
  induction l generalizing p with
  | nil => rfl
  | cons c cs ih => simp only [candlesFromCloses, List.length_cons, ih]

/-- The ordinary series has 50 candles. -/
theorem csOrd_length : csOrd.length = 50 := by
  rw [csOrd, length_candlesFromCloses]
  norm_num [ordCloses, List.replicate]

/-- The strong series has 50 candles. -/
theorem csStrong_length : csStrong.length = 50 := by
  rw [csStrong, length_candlesFromCloses]
  norm_num [strongCloses]

/-- The RSI of the ordinary series is exactly neutral 50. -/
theorem csOrd_RSI : (lastRow csOrd).RSI = some 50 := by
  norm_num [lastRow, csOrd, closes_candlesFromCloses, rsiLast, deltas, lastN, posPart,
    negPart, ordCloses, List.replicate]

/-- The ATR of the ordinary series is 1. -/
theorem csOrd_ATR : (lastRow csOrd).ATR = some 1 := by
  norm_num [lastRow, atrLast, trueRanges, lastN, csOrd, candlesFromCloses, candleBetween,
    ordCloses, List.replicate, max_def, min_def]

/-- Open and close of the ordinary series' last candle. -/
theorem csOrd_Open_Close : (lastRow csOrd).Open = 110 ∧ (lastRow csOrd).Close = 109 := by
  constructor <;>
    norm_num [lastRow, csOrd, candlesFromCloses, candleBetween, ordCloses, List.replicate,
      max_def, min_def]

/-- The ordinary series triggers no wick anomaly. -/
theorem csOrd_wick : detectWickAnomaly csOrd = none := by
  norm_num [detectWickAnomaly, lastRow, atrLast, trueRanges, lastN, listMean, csOrd,
    candlesFromCloses, candleBetween, ordCloses, List.replicate, max_def, min_def]

/-- The running score of the ordinary series through step 5: only the
trend contributes (+30). -/
theorem scoreThroughWick_csOrd : scoreThroughWick csOrd = 30 := by
  have hE : emaLastD 50 ordCloses < emaLastD 20 ordCloses := by
    norm_num [emaLastD, emaLast, emaStep, emaK, ordCloses, List.replicate]
  have hp20 : (lastRow csOrd).EMA20 = emaLastD 20 ordCloses := by
    simp only [lastRow, csOrd, closes_candlesFromCloses]
  have hp50 : (lastRow csOrd).EMA50 = emaLastD 50 ordCloses := by
    simp only [lastRow, csOrd, closes_candlesFromCloses]
  have htrend : trendContribution (lastRow csOrd) = 30 := by
    rw [trendContribution, hp20, hp50, if_pos hE]
  have hmom : momentumContribution (lastRow csOrd) = 0 := by
    rw [momentumContribution, csOrd_RSI]
    norm_num
  have hdd : (lastRow csOrd).DeltaDelta = some (-2) := by
    norm_num [lastRow, csOrd, closes_candlesFromCloses, deltaDeltaLast, deltas, ordCloses,
      List.replicate]
  have hdir : trendDirOf (lastRow csOrd) = .uptrend := by
    rw [trendDirOf, hp20, hp50, if_pos hE]
  have haccel : accelContribution (lastRow csOrd) = 0 := by
    simp only [accelContribution, hdd, hdir]
    rw [if_neg (by rintro ⟨-, hlt⟩; norm_num at hlt), if_neg (by rintro ⟨hc, -⟩; cases hc)]
  have hwick : wickContribution csOrd = 0 := by
    rw [wickContribution, csOrd_wick]
  simp only [scoreThroughWick, htrend, hmom, haccel, hwick, csOrd_ATR]
  rw [if_neg]
  · norm_num
  · rw [csOrd_Open_Close.1, csOrd_Open_Close.2]
    norm_num

/-- The full running score of the ordinary series against an empty
store: 30 dampened by the neutral higher timeframe to 24. -/
theorem scorePipeline_csOrd : scorePipeline "1h" csOrd [] = 24 := by
  rw [scorePipeline, getHtfTrend_nil, lastOf_nil, lastOf_nil, lastOf_nil, corrAdj_skip,
    scoreThroughWick_csOrd, htfAdj_neutral 30 (by norm_num)]
  norm_num

/-- The full result of the ordinary series: BUY at confidence 66 with
the (1.5, 2.0) ATR bracket. -/
theorem csOrd_eval :
    analyzeTimeframeIntended "1h" (some csOrd) [] =
      ⟨"1H", .buy, 66, "", some ⟨109, 215/2, 111⟩, .buy⟩ := by
  have hup : pyUpper "1h" = "1H" := rfl
  have hdisp : max 0 (min 100 (pyInt (50 + 24 / (3/2 : ℚ)))) = 66 := by norm_num [pyInt]
  simp only [analyzeTimeframeIntended]
  rw [if_neg (by rw [csOrd_length]; omega), scorePipeline_csOrd]
  simp [finalize, csOrd_ATR, csOrd_Open_Close.2, hdisp, hup, Option.getD_some,
    AnalysisResult.mk.injEq, TradeGuide.mk.injEq]
  all_goals norm_num

/-- The RSI of the strong series is exactly 100 (all last-window deltas
are gains). -/
theorem csStrong_RSI : (lastRow csStrong).RSI = some 100 := by
  norm_num [lastRow, csStrong, closes_candlesFromCloses, rsiLast, deltas, lastN, posPart,
    negPart, strongCloses]

/-- The ATR of the strong series is 17/14. -/
theorem csStrong_ATR : (lastRow csStrong).ATR = some (17/14) := by
  norm_num [lastRow, atrLast, trueRanges, lastN, csStrong, candlesFromCloses, candleBetween,
    strongCloses, max_def, min_def]

/-- Open and close of the strong series' last candle. -/
theorem csStrong_Open_Close :
    (lastRow csStrong).Open = 149 ∧ (lastRow csStrong).Close = 152 := by
  constructor <;>
    norm_num [lastRow, csStrong, candlesFromCloses, candleBetween, strongCloses, max_def,
      min_def]

/-- The strong series triggers no wick anomaly. -/
theorem csStrong_wick : detectWickAnomaly csStrong = none := by
  norm_num [detectWickAnomaly, lastRow, atrLast, trueRanges, lastN, listMean, csStrong,
    candlesFromCloses, candleBetween, strongCloses, max_def, min_def]

/-- The running score of the strong series through step 5: trend,
momentum and acceleration all fire (+70). -/
theorem scoreThroughWick_csStrong : scoreThroughWick csStrong = 70 := by
  have hE : emaLastD 50 strongCloses < emaLastD 20 strongCloses := by
    norm_num [emaLastD, emaLast, emaStep, emaK, strongCloses]
  have hp20 : (lastRow csStrong).EMA20 = emaLastD 20 strongCloses := by
    simp only [lastRow, csStrong, closes_candlesFromCloses]
  have hp50 : (lastRow csStrong).EMA50 = emaLastD 50 strongCloses := by
    simp only [lastRow, csStrong, closes_candlesFromCloses]
  have htrend : trendContribution (lastRow csStrong) = 30 := by
    rw [trendContribution, hp20, hp50, if_pos hE]
  have hmom : momentumContribution (lastRow csStrong) = 25 := by
    rw [momentumContribution, csStrong_RSI]
    norm_num
  have hdd : (lastRow csStrong).DeltaDelta = some 1 := by
    norm_num [lastRow, csStrong, closes_candlesFromCloses, deltaDeltaLast, deltas,
      strongCloses]
  have hdir : trendDirOf (lastRow csStrong) = .uptrend := by
    rw [trendDirOf, hp20, hp50, if_pos hE]
  have haccel : accelContribution (lastRow csStrong) = 15 := by
    simp only [accelContribution, hdd, hdir]
    rw [if_pos (by norm_num)]
  have hwick : wickContribution csStrong = 0 := by
    rw [wickContribution, csStrong_wick]
  simp only [scoreThroughWick, htrend, hmom, haccel, hwick, csStrong_ATR]
  rw [if_neg]
  · norm_num
  · rw [csStrong_Open_Close.1, csStrong_Open_Close.2]
    norm_num

/-- The full running score of the strong series against an empty store:
70 dampened to 56. -/
theorem scorePipeline_csStrong : scorePipeline "1h" csStrong [] = 56 := by
  rw [scorePipeline, getHtfTrend_nil, lastOf_nil, lastOf_nil, lastOf_nil, corrAdj_skip,
    scoreThroughWick_csStrong, htfAdj_neutral 70 (by norm_num)]
  norm_num

/-- The full result of the strong series: BUY at confidence 87 with the
same (1.5, 2.0) ATR bracket. -/
theorem csStrong_eval :
    analyzeTimeframeIntended "1h" (some csStrong) [] =
      ⟨"1H", .buy, 87, "", some ⟨152, 4205/28, 1081/7⟩, .buy⟩ := by
  have hup : pyUpper "1h" = "1H" := rfl
  have hdisp : max 0 (min 100 (pyInt (50 + 56 / (3/2 : ℚ)))) = 87 := by norm_num [pyInt]
  simp only [analyzeTimeframeIntended]
  rw [if_neg (by rw [csStrong_length]; omega), scorePipeline_csStrong]
  simp [finalize, csStrong_ATR, csStrong_Open_Close.2, hdisp, hup, Option.getD_some,
    AnalysisResult.mk.injEq, TradeGuide.mk.injEq]
  all_goals norm_num

/-! ### Claim C5 -/

/-- Claim C5 is false on the code: during the Asian session the supplied
multiplier is 0.7, and the spec's session-weighted rescale of the
ordinary series' score 24 would display 61 — but the engine returns 66,
the unweighted rescale: the multiplier is never applied to the score. -/
theorem C5_session_counterexample :
    (sessionProfileDubai 4).2 = 7/10 ∧
    scorePipeline "1h" csOrd [] = 24 ∧
    (analyzeTimeframeIntended "1h" (some csOrd) []).score = 66 ∧
    specSessionWeightedDisplay ((sessionProfileDubai 4).2) (scorePipeline "1h" csOrd []) =
      61 ∧
    ((61 : ℤ) ≠ 66) := by
  have hs : (sessionProfileDubai 4).2 = 7/10 := by norm_num [sessionProfileDubai]
  refine ⟨hs, scorePipeline_csOrd, by rw [csOrd_eval], ?_, by norm_num⟩
  rw [hs, scorePipeline_csOrd]
  norm_num [specSessionWeightedDisplay, pyInt]

/-- Claim C5 amended: `get_session_profile_dubai` does supply the
session multipliers (0.7 Asian dampening, 1.6 London/NY-overlap
amplification), but the dashboard discards the multiplier
(`session, _ = ...`) and no session weighting exists in the scoring
path: the signals are identical at every hour, and only the session
NAME reaches the response. -/
theorem C5_session_amended :
    (∀ h₁ h₂ store, (dashboardResponse h₁ store).2 = (dashboardResponse h₂ store).2) ∧
    (sessionProfileDubai 4).2 = 7/10 ∧
    (sessionProfileDubai 13).2 = 8/5 ∧
    (∀ h store, (dashboardResponse h store).1 = (sessionProfileDubai h).1) := by
  refine ⟨fun _ _ _ => rfl, by norm_num [sessionProfileDubai],
    by norm_num [sessionProfileDubai], fun _ _ => rfl⟩

/-! ### Claim C10 -/

/-- Behaviour of the trade-guide construction in `finalize`: populated
exactly when the action is not WAIT and the ATR is positive, with the
single multiplier pair (1.5, 2.0) around the close. -/
theorem finalize_guide_spec (tf : String) (r : Row) (s : ℚ) :
    ((finalize tf r s).tradeGuide.isSome ↔
      ((finalize tf r s).action ≠ .wait ∧ 0 < r.ATR.getD 0)) ∧
    (((finalize tf r s).action = .buy ∧ 0 < r.ATR.getD 0) →
      (finalize tf r s).tradeGuide =
        some ⟨r.Close, r.Close - (3/2) * r.ATR.getD 0, r.Close + 2 * r.ATR.getD 0⟩) ∧
    (((finalize tf r s).action = .sell ∧ 0 < r.ATR.getD 0) →
      (finalize tf r s).tradeGuide =
        some ⟨r.Close, r.Close + (3/2) * r.ATR.getD 0, r.Close - 2 * r.ATR.getD 0⟩) ∧
    ((finalize tf r s).action = .wait → (finalize tf r s).tradeGuide = none) := by
  simp only [finalize]
  by_cases hA : 0 < r.ATR.getD 0 <;> split_ifs <;> simp_all

/-- Claim C10 is false on the code at its two-tier clause: the ordinary
BUY (confidence 66) and the strong BUY (confidence 87, past the 70
prediction threshold) receive exactly the same multiplier pair —
stop at 1.5 ATR, target at 2.0 ATR — so there is no wider
high-confidence tier. -/
theorem C10_trade_guide_counterexample :
    (analyzeTimeframeIntended "1h" (some csOrd) []).action = .buy ∧
    (analyzeTimeframeIntended "1h" (some csOrd) []).score = 66 ∧
    (analyzeTimeframeIntended "1h" (some csOrd) []).tradeGuide =
      some ⟨109, 109 - (3/2) * 1, 109 + 2 * 1⟩ ∧
    (analyzeTimeframeIntended "1h" (some csStrong) []).action = .buy ∧
    (analyzeTimeframeIntended "1h" (some csStrong) []).score = 87 ∧
    (70 < (analyzeTimeframeIntended "1h" (some csStrong) []).score) ∧
    (analyzeTimeframeIntended "1h" (some csStrong) []).tradeGuide =
      some ⟨152, 152 - (3/2) * (17/14), 152 + 2 * (17/14)⟩ := by
  rw [csOrd_eval, csStrong_eval]
  norm_num [TradeGuide.mk.injEq]

/-- Claim C10 amended: the trade guide is populated exactly when the
action is not WAIT and ATR > 0, with `sl = entry ∓ 1.5*ATR` and
`tp = entry ± 2.0*ATR` — one fixed multiplier pair for all signals,
with no separate high-confidence tier; for WAIT the guide is the empty
placeholder. -/
theorem C10_trade_guide_amended :
    (∀ tf cs store, 50 ≤ cs.length →
      ((analyzeTimeframeIntended tf (some cs) store).tradeGuide.isSome ↔
        ((analyzeTimeframeIntended tf (some cs) store).action ≠ .wait ∧
          0 < (lastRow cs).ATR.getD 0)) ∧
      (((analyzeTimeframeIntended tf (some cs) store).action = .buy ∧
          0 < (lastRow cs).ATR.getD 0) →
        (analyzeTimeframeIntended tf (some cs) store).tradeGuide =
          some ⟨(lastRow cs).Close,
            (lastRow cs).Close - (3/2) * (lastRow cs).ATR.getD 0,
            (lastRow cs).Close + 2 * (lastRow cs).ATR.getD 0⟩) ∧
      (((analyzeTimeframeIntended tf (some cs) store).action = .sell ∧
          0 < (lastRow cs).ATR.getD 0) →
        (analyzeTimeframeIntended tf (some cs) store).tradeGuide =
          some ⟨(lastRow cs).Close,
            (lastRow cs).Close + (3/2) * (lastRow cs).ATR.getD 0,
            (lastRow cs).Close - 2 * (lastRow cs).ATR.getD 0⟩)) ∧
    (∀ tf df store, (analyzeTimeframeIntended tf df store).action = .wait →
      (analyzeTimeframeIntended tf df store).tradeGuide = none) := by
  constructor
  · intro tf cs store hlen
    have hspec := finalize_guide_spec tf (lastRow cs) (scorePipeline tf cs store)
    simp only [analyzeTimeframeIntended]
    rw [if_neg (by omega)]
    exact ⟨hspec.1, hspec.2.1, hspec.2.2.1⟩
  · intro tf df store h
    rcases df with _ | cs
    · rfl
    · simp only [analyzeTimeframeIntended] at h ⊢
      split_ifs at h ⊢ with hlen
      · rfl
      · exact (finalize_guide_spec tf (lastRow cs) (scorePipeline tf cs store)).2.2.2 h

/-- Witness for the amended C10 at the ordinary BUY series. -/
theorem C10_trade_guide_amended_witness :
    (analyzeTimeframeIntended "1h" (some csOrd) []).tradeGuide =
      some ⟨(lastRow csOrd).Close,
        (lastRow csOrd).Close - (3/2) * (lastRow csOrd).ATR.getD 0,
        (lastRow csOrd).Close + 2 * (lastRow csOrd).ATR.getD 0⟩ := by
  apply (C10_trade_guide_amended.1 "1h" csOrd [] (by rw [csOrd_length])).2.1
  constructor
  · rw [csOrd_eval]
  · rw [csOrd_ATR]
    norm_num

end GoldXAU
